import Mathlib

/-!
Shallow embedding of the Amazon_Web_automation repository
(`page_objects/base_page.py`, `utils/logger.py`, `conftest.py`).

The browser driver is external: each wrapper operation is modelled as a pure
function of the driver's observable responses (which exception, if any, each
driver call raises), returning the operation's outcome (normal return or a
raised exception), the log records it emits, and the driver-side actions it
performs.  Python exceptions are modelled by the `PyExc` type; the `labeled`
constructor stands for the plain `Exception(msg)` values that `BasePage`
itself raises, every other constructor is a Selenium `WebDriverException`
subclass.
-/

namespace AWA

/-- Log levels used by the repository (`logging.INFO/WARNING/ERROR`). -/
inductive Level where
  | info
  | warning
  | error
  deriving DecidableEq

/-- A log record as written by the handler's formatter: level and message
(timestamps are not modelled; records are kept in emission order). -/
structure LogRec where
  level : Level
  msg : String
  deriving DecidableEq

/-- Python exceptions visible to `base_page.py` and `conftest.py`.
`labeled m` is a plain `Exception(m)` raised by the wrapper itself;
all other constructors are `WebDriverException` subclasses. -/
inductive PyExc where
  | timeout
  | elementClickIntercepted
  | staleElementReference
  | noSuchElement
  | noAlertPresent
  | webDriver
  | labeled (m : String)
  deriving DecidableEq

/-- The exception classes caught by `BasePage.click`:
`(TimeoutException, ElementClickInterceptedException, StaleElementReferenceException)`. -/
def PyExc.caughtByClick : PyExc → Bool
  | .timeout => true
  | .elementClickIntercepted => true
  | .staleElementReference => true
  | _ => false

/-- `isinstance(e, WebDriverException)`: true for every driver exception,
false for the wrapper's own plain `Exception`. -/
def PyExc.isWebDriverException : PyExc → Bool
  | .labeled _ => false
  | _ => true

/-- Rendering of an exception as interpolated into log messages (`{e}`). -/
def pyExcStr : PyExc → String
  | .timeout => "TimeoutException"
  | .elementClickIntercepted => "ElementClickInterceptedException"
  | .staleElementReference => "StaleElementReferenceException"
  | .noSuchElement => "NoSuchElementException"
  | .noAlertPresent => "NoAlertPresentException"
  | .webDriver => "WebDriverException"
  | .labeled m => m

/-- Outcome of one click attempt: the driver either lets
`wait.until(element_to_be_clickable(locator))` succeed and the click go
through, or some driver call raises an exception. -/
inductive AttemptOutcome where
  | ok
  | raises (e : PyExc)
  deriving DecidableEq

/-- Result of `BasePage.click`: normal return or raised exception, the log
records emitted (in order), and the durations of the `time.sleep` calls
performed (in order). -/
structure ClickResult where
  outcome : Except PyExc Unit
  log : List LogRec
  sleeps : List Nat

/-- The warning message `f"⚠️ Click failed ({attempt + 1}/{retries}) for {locator} - {e}"`. -/
def clickWarnMsg (locator : String) (retries attempt : Nat) (e : PyExc) : String :=
  "⚠️ Click failed (" ++ toString (attempt + 1) ++ "/" ++ toString retries ++ ") for "
    ++ locator ++ " - " ++ pyExcStr e

/-- The error message `f"❌ Click failed for {locator} after {retries} retries"`. -/
def clickErrMsg (locator : String) (retries : Nat) : String :=
  "❌ Click failed for " ++ locator ++ " after " ++ toString retries ++ " retries"

/-- The message of the `Exception` that `click` raises after the loop. -/
def clickFailMsg (locator : String) : String :=
  "Click failed for " ++ locator

/-- The body of `BasePage.click`'s `for attempt in range(retries)` loop,
parameterised by the outcome `beh i` of each attempt `i`.  `attempt` is the
current loop index, `remaining` the number of iterations left.  A caught
exception logs a warning and sleeps 1 second before the next iteration; an
uncaught exception propagates at once with nothing logged; loop exhaustion
logs the error and raises `Exception(f"Click failed for {locator}")`. -/
def clickLoop (locator : String) (retries : Nat) (beh : Nat → AttemptOutcome)
    (attempt : Nat) : Nat → ClickResult
  | 0 =>
    ⟨.error (.labeled (clickFailMsg locator)), [⟨.error, clickErrMsg locator retries⟩], []⟩
  | remaining + 1 =>
    match beh attempt with
    | .ok => ⟨.ok (), [⟨.info, "✅ Clicked on: " ++ locator⟩], []⟩
    | .raises e =>
      if e.caughtByClick then
        let rest := clickLoop locator retries beh (attempt + 1) remaining
        ⟨rest.outcome, ⟨.warning, clickWarnMsg locator retries attempt e⟩ :: rest.log,
          1 :: rest.sleeps⟩
      else ⟨.error e, [], []⟩

/-- `BasePage.click(locator, retries=2)`. -/
def click (locator : String) (retries : Nat) (beh : Nat → AttemptOutcome) : ClickResult :=
  clickLoop locator retries beh 0 retries

/-- Outcome of `driver.find_element(*locator)` inside `is_element_present`:
the element is found, or the call raises an exception
(`NoSuchElementException` when the element is absent). -/
inductive FindOutcome where
  | found
  | raises (e : PyExc)
  deriving DecidableEq

/-- Result of `BasePage.is_element_present`. -/
structure ProbeResult where
  outcome : Except PyExc Bool
  log : List LogRec

/-- `BasePage.is_element_present(locator)`: returns `True` when
`find_element` succeeds, catches only `NoSuchElementException` (returning
`False`); any other exception propagates. -/
def is_element_present (locator : String) (find : FindOutcome) : ProbeResult :=
  match find with
  | .found => ⟨.ok true, [⟨.info, "✅ Element " ++ locator ++ " is present"⟩]⟩
  | .raises e =>
    if e = .noSuchElement then
      ⟨.ok false, [⟨.warning, "⚠️ Element " ++ locator ++ " is NOT present"⟩]⟩
    else ⟨.error e, []⟩

/-- Driver-side actions performed on the input field by `enter_text`. -/
inductive FieldAction where
  | cleared
  | sentKeys (text : String)
  deriving DecidableEq

/-- Driver responses relevant to `BasePage.enter_text`:
the outcome of `wait.until(presence_of_element_located(locator))`, and the
exception (if any) raised by `element.clear()` and `element.send_keys(text)`. -/
structure ElemBehavior where
  findResult : Except PyExc Unit
  clearErr : Option PyExc
  sendKeysErr : Option PyExc

/-- Result of `BasePage.enter_text`. -/
structure EnterResult where
  outcome : Except PyExc Unit
  log : List LogRec
  actions : List FieldAction

/-- The message of the `Exception` `enter_text` raises on timeout, and of
the error record it logs (which carries the `❌` prefix). -/
def enterFailMsg (locator : String) : String :=
  "Timeout: Unable to enter text in " ++ locator

/-- The `try` body of `enter_text`: find, optionally clear, send keys.
Returns the actions performed, or the escaping exception paired with the
actions performed before it. -/
def enterBody (b : ElemBehavior) (text : String) (clear : Bool) :
    Except (PyExc × List FieldAction) (List FieldAction) :=
  match b.findResult with
  | .error e => .error (e, [])
  | .ok _ =>
    if clear then
      match b.clearErr with
      | some e => .error (e, [])
      | none =>
        match b.sendKeysErr with
        | some e => .error (e, [.cleared])
        | none => .ok [.cleared, .sentKeys text]
    else
      match b.sendKeysErr with
      | some e => .error (e, [])
      | none => .ok [.sentKeys text]

/-- `BasePage.enter_text(locator, text, clear=True)`: the whole body is
wrapped in `try ... except TimeoutException`, so a `TimeoutException`
escaping the body is logged at error level and re-raised as
`Exception(f"Timeout: Unable to enter text in {locator}")`; any other
exception propagates with nothing logged. -/
def enter_text (locator text : String) (clear : Bool) (b : ElemBehavior) : EnterResult :=
  match enterBody b text clear with
  | .ok acts => ⟨.ok (), [⟨.info, "✅ Entered text " ++ text ++ " in " ++ locator⟩], acts⟩
  | .error (e, acts) =>
    if e = .timeout then
      ⟨.error (.labeled (enterFailMsg locator)), [⟨.error, "❌ " ++ enterFailMsg locator⟩], acts⟩
    else ⟨.error e, [], acts⟩

/-- Result of `BasePage.get_text`. -/
structure TextResult where
  outcome : Except PyExc String
  log : List LogRec

/-- `BasePage.get_text(locator)`: `body` is the outcome of
`wait.until(visibility_of_element_located(locator))` followed by
`element.text`; only `TimeoutException` is caught, logged and re-raised as
a labeled `Exception`. -/
def get_text (locator : String) (body : Except PyExc String) : TextResult :=
  match body with
  | .ok txt => ⟨.ok txt, [⟨.info, "✅ Retrieved text " ++ txt ++ " from " ++ locator⟩]⟩
  | .error e =>
    if e = .timeout then
      ⟨.error (.labeled ("Timeout: Unable to get text from " ++ locator)),
       [⟨.error, "❌ Timeout: Unable to get text from " ++ locator⟩]⟩
    else ⟨.error e, []⟩

/-- Result of `BasePage.scroll_to_element`. -/
structure ScrollResult where
  outcome : Except PyExc Unit
  log : List LogRec

/-- `BasePage.scroll_to_element(locator)`: `body` is the outcome of
`wait.until(presence_of_element_located(locator))` followed by the
`scrollIntoView` script; only `TimeoutException` is caught, logged and
re-raised as a labeled `Exception`. -/
def scroll_to_element (locator : String) (body : Except PyExc Unit) : ScrollResult :=
  match body with
  | .ok _ => ⟨.ok (), [⟨.info, "✅ Scrolled to element: " ++ locator⟩]⟩
  | .error e =>
    if e = .timeout then
      ⟨.error (.labeled ("Timeout: Unable to scroll to " ++ locator)),
       [⟨.error, "❌ Timeout: Unable to scroll to " ++ locator⟩]⟩
    else ⟨.error e, []⟩

/-- Driver state relevant to `BasePage.handle_alert`: the active alert's
text (`none` when `driver.switch_to.alert` raises `NoAlertPresentException`),
and the exception (if any) raised by `alert.accept()` / `alert.dismiss()`. -/
structure AlertBehavior where
  present : Option String
  acceptErr : Option PyExc
  dismissErr : Option PyExc

/-- Alert actions completed by the driver. -/
inductive AlertAction where
  | accepted
  | dismissed
  deriving DecidableEq

/-- Result of `BasePage.handle_alert`. -/
structure AlertResult where
  outcome : Except PyExc (Option String)
  log : List LogRec
  actions : List AlertAction

/-- `BasePage.handle_alert(accept=True)`: the whole body is wrapped in
`try ... except WebDriverException`, so alert absence and any driver
exception during accept/dismiss alike log the warning `⚠️ No alert found`
and return `None`; on success the alert text is returned. -/
def handle_alert (b : AlertBehavior) (accept : Bool) : AlertResult :=
  match b.present with
  | none => ⟨.ok none, [⟨.warning, "⚠️ No alert found"⟩], []⟩
  | some txt =>
    if accept then
      match b.acceptErr with
      | none => ⟨.ok (some txt), [⟨.info, "✅ Alert accepted: " ++ txt⟩], [.accepted]⟩
      | some e =>
        if e.isWebDriverException then ⟨.ok none, [⟨.warning, "⚠️ No alert found"⟩], []⟩
        else ⟨.error e, [], []⟩
    else
      match b.dismissErr with
      | none => ⟨.ok (some txt), [⟨.info, "✅ Alert dismissed: " ++ txt⟩], [.dismissed]⟩
      | some e =>
        if e.isWebDriverException then ⟨.ok none, [⟨.warning, "⚠️ No alert found"⟩], []⟩
        else ⟨.error e, [], []⟩

/-- Result of `BasePage.wait_for_page_load`. -/
structure PageLoadResult where
  outcome : Except PyExc Unit
  log : List LogRec

/-- The polling loop of `WebDriverWait(driver, timeout).until(...)` over the
page-ready signal `driver.execute_script("return document.readyState") == "complete"`,
modelled one poll per time unit: returns the first tick `< fuel` (offset from
`t`) at which `ready` holds, `none` when the bound elapses first. -/
def waitPoll (ready : Nat → Bool) : Nat → Nat → Option Nat
  | 0, _ => none
  | fuel + 1, t => if ready t then some t else waitPoll ready fuel (t + 1)

/-- `BasePage.wait_for_page_load(timeout=10)`: polls the page-ready signal;
on success logs at info level; on `TimeoutException` logs at error level and
returns normally (the exception is swallowed). -/
def wait_for_page_load (timeout : Nat) (ready : Nat → Bool) : PageLoadResult :=
  match waitPoll ready timeout 0 with
  | some _ => ⟨.ok (), [⟨.info, "✅ Page fully loaded"⟩]⟩
  | none => ⟨.ok (), [⟨.error, "❌ Timeout: Page did not load completely"⟩]⟩

/-- The log filename `f"{datetime.now().strftime('%Y-%m-%d_%H-%M-%S')}.log"`
joined under `logs/`, keyed by the wall-clock timestamp `t` of the
`get_logger` call. -/
def logFilename (t : Nat) : String :=
  "logs/" ++ toString t ++ ".log"

/-- State of the process-wide root logger together with the log directory:
the filenames of the attached `FileHandler`s (in attachment order) and each
file's contents (lines, as a total map from filename; untouched files are
empty). -/
structure LoggerState where
  handlers : List String
  files : String → List String

/-- The empty logging state at interpreter start. -/
def logInit : LoggerState := ⟨[], fun _ => []⟩

/-- `utils.logger.get_logger()` at wall-clock time `t`: builds a fresh
timestamped filename, attaches a new `FileHandler(log_path, mode="w")` to the
root logger (`addHandler` never deduplicates), and — because mode `"w"` opens
the file truncating it — resets that file's contents to empty. -/
def get_logger (t : Nat) (s : LoggerState) : LoggerState :=
  ⟨s.handlers ++ [logFilename t],
   fun n => if n = logFilename t then [] else s.files n⟩

/-- Emission of one log record through the root logger: every attached
handler appends the formatted line to its own file, in attachment order. -/
def emit (s : LoggerState) (line : String) : LoggerState :=
  ⟨s.handlers,
   s.handlers.foldl (fun g h => fun n => if n = h then g h ++ [line] else g n) s.files⟩

/-- How the `conftest.browser` fixture's setup can go: construction and
navigation succeed; `webdriver.Chrome(...)` raises a `WebDriverException`
before `driver` is bound; or `driver.get` raises a `WebDriverException`
after `driver` is bound. -/
inductive SetupOutcome where
  | ok
  | failBeforeDriver
  | failAfterDriver
  deriving DecidableEq

/-- How the test body using the yielded driver finishes: pass, assertion
failure, unexpected non-driver error, or a `WebDriverException` (the latter is
thrown back into the generator at the `yield` and caught by the fixture's
`except WebDriverException`). -/
inductive TestOutcome where
  | pass
  | assertFail
  | unexpectedErr
  | webDriverErr
  deriving DecidableEq

/-- Observable outcome of one run of the `browser` fixture: how many times
`driver.quit()` was called, whether the test body ran to its end, and whether
`pytest.fail` was invoked by the fixture. -/
structure FixtureRun where
  quitCalls : Nat
  testRan : Bool
  reportedFail : Bool
  log : List LogRec

/-- `conftest.browser`: `try` wraps setup and the `yield`; `except
WebDriverException` logs and calls `pytest.fail`; `finally` calls
`driver.quit()` exactly when `'driver' in locals()`. -/
def browser (setup : SetupOutcome) (test : TestOutcome) : FixtureRun :=
  match setup with
  | .failBeforeDriver =>
    ⟨0, false, true,
     [⟨.info, "Starting the browser setup..."⟩,
      ⟨.error, "Failed to initialize the browser or load the page"⟩]⟩
  | .failAfterDriver =>
    ⟨1, false, true,
     [⟨.info, "Starting the browser setup..."⟩,
      ⟨.info, "Navigating to Google homepage"⟩,
      ⟨.error, "Failed to initialize the browser or load the page"⟩,
      ⟨.info, "Browser closed after the test."⟩]⟩
  | .ok =>
    match test with
    | .webDriverErr =>
      ⟨1, true, true,
       [⟨.info, "Starting the browser setup..."⟩,
        ⟨.info, "Navigating to Google homepage"⟩,
        ⟨.error, "Failed to initialize the browser or load the page"⟩,
        ⟨.info, "Browser closed after the test."⟩]⟩
    | _ =>
      ⟨1, true, false,
       [⟨.info, "Starting the browser setup..."⟩,
        ⟨.info, "Navigating to Google homepage"⟩,
        ⟨.info, "Browser closed after the test."⟩]⟩

lemma clickLoop_allTimeout (locator : String) (retries : Nat) (beh : Nat → AttemptOutcome)
    (h : ∀ i, beh i = .raises .timeout) :
    ∀ remaining attempt,
      clickLoop locator retries beh attempt remaining =
        ⟨.error (.labeled (clickFailMsg locator)),
         (List.range' attempt remaining).map
             (fun j => ⟨.warning, clickWarnMsg locator retries j .timeout⟩)
           ++ [⟨.error, clickErrMsg locator retries⟩],
         List.replicate remaining 1⟩ := by
  intro remaining
  induction remaining with
  | zero => intro attempt; simp [clickLoop]
  | succ n ih =>
    intro attempt
    rw [clickLoop, h attempt]
    simp only [PyExc.caughtByClick, if_true, ih (attempt + 1)]
    rw [List.range'_succ, List.map_cons, List.cons_append, List.replicate_succ]

/-- C1: for every locator that never becomes clickable within the wait bound
(every attempt raises `TimeoutException`), `click(locator, retries)` logs
exactly `retries` warning records (one per failed attempt), then logs an
error record and raises the click-failed `Exception`; it sleeps the fixed
interval 1 after each failed attempt — no exponential backoff. -/
theorem C1_click_never_clickable (locator : String) (retries : Nat)
    (beh : Nat → AttemptOutcome) (h : ∀ i, beh i = .raises .timeout) :
    click locator retries beh =
      ⟨.error (.labeled (clickFailMsg locator)),
       (List.range' 0 retries).map
           (fun j => ⟨.warning, clickWarnMsg locator retries j .timeout⟩)
         ++ [⟨.error, clickErrMsg locator retries⟩],
       List.replicate retries 1⟩ ∧
    ((click locator retries beh).log.filter
        (fun r => decide (r.level = Level.warning))).length = retries := by
  have h1 := clickLoop_allTimeout locator retries beh h retries 0
  refine ⟨h1, ?_⟩
  show ((clickLoop locator retries beh 0 retries).log.filter
      (fun r => decide (r.level = Level.warning))).length = retries
  rw [h1]
  simp [List.filter_append, List.filter_map, Function.comp_def, List.length_range']

/-- Witness for C1 at `locator = "button"`, `retries = 2`. -/
theorem C1_click_never_clickable_witness :
    click "button" 2 (fun _ => AttemptOutcome.raises PyExc.timeout) =
      ⟨.error (.labeled (clickFailMsg "button")),
       (List.range' 0 2).map
           (fun j => ⟨.warning, clickWarnMsg "button" 2 j .timeout⟩)
         ++ [⟨.error, clickErrMsg "button" 2⟩],
       List.replicate 2 1⟩ ∧
    ((click "button" 2 (fun _ => AttemptOutcome.raises PyExc.timeout)).log.filter
        (fun r => decide (r.level = Level.warning))).length = 2 :=
  C1_click_never_clickable "button" 2 (fun _ => AttemptOutcome.raises PyExc.timeout)
    (fun _ => rfl)

/-- C2: for every locator that is present or absent (driver outcome `found`
or `NoSuchElementException`), `is_element_present` returns a boolean — `True`
when found, `False` when absent — and never raises. -/
theorem C2_presence_probe_total (locator : String) (find : FindOutcome)
    (h : find = .found ∨ find = .raises .noSuchElement) :
    (find = .found → (is_element_present locator find).outcome = .ok true) ∧
    (find = .raises .noSuchElement →
      (is_element_present locator find).outcome = .ok false) ∧
    ∃ b : Bool, (is_element_present locator find).outcome = .ok b := by
  rcases h with h | h <;> subst h
  · exact ⟨fun _ => rfl, fun hh => absurd hh (by decide), ⟨true, rfl⟩⟩
  · exact ⟨fun hh => absurd hh (by decide), fun _ => rfl, ⟨false, rfl⟩⟩

/-- Witness for C2 at a present and at an absent locator. -/
theorem C2_presence_probe_total_witness :
    ((FindOutcome.found = .found →
        (is_element_present "q" .found).outcome = .ok true) ∧
     (FindOutcome.found = .raises .noSuchElement →
        (is_element_present "q" .found).outcome = .ok false) ∧
     ∃ b : Bool, (is_element_present "q" .found).outcome = .ok b) ∧
    ((FindOutcome.raises .noSuchElement = .found →
        (is_element_present "q" (.raises .noSuchElement)).outcome = .ok true) ∧
     (FindOutcome.raises .noSuchElement = .raises .noSuchElement →
        (is_element_present "q" (.raises .noSuchElement)).outcome = .ok false) ∧
     ∃ b : Bool, (is_element_present "q" (.raises .noSuchElement)).outcome = .ok b) :=
  ⟨C2_presence_probe_total "q" .found (Or.inl rfl),
   C2_presence_probe_total "q" (.raises .noSuchElement) (Or.inr rfl)⟩

/-- C4: on every execution path where the test body ran to its end (pass,
assertion failure, unexpected error, or driver error in the test), the
`browser` fixture calls `driver.quit()` exactly once. -/
theorem C4_teardown_exactly_once (setup : SetupOutcome) (test : TestOutcome)
    (h : (browser setup test).testRan = true) :
    (browser setup test).quitCalls = 1 := by
  cases setup <;> cases test <;> simp_all [browser]

/-- Witness for C4 on the passing path. -/
theorem C4_teardown_exactly_once_witness :
    (browser .ok .pass).testRan = true ∧ (browser .ok .pass).quitCalls = 1 :=
  ⟨rfl, C4_teardown_exactly_once .ok .pass rfl⟩

/-- C5: with a healthy driver (accept/dismiss do not themselves fail),
`handle_alert` returns `None` without raising when no alert is active, and
when an alert is active it accepts or dismisses it according to the flag and
returns the alert's text. -/
theorem C5_handle_alert_behaviour (b : AlertBehavior) (accept : Bool)
    (hA : b.acceptErr = none) (hD : b.dismissErr = none) :
    (b.present = none →
      handle_alert b accept = ⟨.ok none, [⟨.warning, "⚠️ No alert found"⟩], []⟩) ∧
    (∀ txt, b.present = some txt →
      handle_alert b accept =
        ⟨.ok (some txt),
         [⟨.info, (if accept then "✅ Alert accepted: " else "✅ Alert dismissed: ") ++ txt⟩],
         [if accept then .accepted else .dismissed]⟩) := by
  constructor
  · intro hp
    simp [handle_alert, hp]
  · intro txt hp
    cases accept <;> simp [handle_alert, hp, hA, hD]

/-- Witness for C5 with no alert and with an active alert. -/
theorem C5_handle_alert_behaviour_witness :
    handle_alert ⟨none, none, none⟩ true =
      ⟨.ok none, [⟨.warning, "⚠️ No alert found"⟩], []⟩ ∧
    handle_alert ⟨some "Sure?", none, none⟩ false =
      ⟨.ok (some "Sure?"),
       [⟨.info, (if false then "✅ Alert accepted: " else "✅ Alert dismissed: ") ++ "Sure?"⟩],
       [if false then .accepted else .dismissed]⟩ :=
  ⟨(C5_handle_alert_behaviour ⟨none, none, none⟩ true rfl rfl).1 rfl,
   (C5_handle_alert_behaviour ⟨some "Sure?", none, none⟩ false rfl rfl).2 "Sure?" rfl⟩

/-- C6: when the element does not appear within the wait bound
(`TimeoutException` from the presence wait), `enter_text` logs an error
record whose message carries the locator and raises the labeled
text-entry-failure `Exception`; when the element is present and the driver
calls succeed, it clears the field exactly when `clear` is set and sends the
keystrokes — there is no retry loop. -/
theorem C6_enter_text_timeout_vs_success (locator text : String) (clear : Bool)
    (b : ElemBehavior) :
    (b.findResult = .error .timeout →
      enter_text locator text clear b =
        ⟨.error (.labeled (enterFailMsg locator)),
         [⟨.error, "❌ " ++ enterFailMsg locator⟩], []⟩) ∧
    (b.findResult = .ok () → b.clearErr = none → b.sendKeysErr = none →
      enter_text locator text clear b =
        ⟨.ok (), [⟨.info, "✅ Entered text " ++ text ++ " in " ++ locator⟩],
         if clear then [.cleared, .sentKeys text] else [.sentKeys text]⟩) := by
  constructor
  · intro h
    simp [enter_text, enterBody, h]
  · intro h h1 h2
    cases clear <;> simp [enter_text, enterBody, h, h1, h2]

/-- Witness for C6 on the timeout path and the success path. -/
theorem C6_enter_text_timeout_vs_success_witness :
    enter_text "field" "hello" true ⟨.error .timeout, none, none⟩ =
      ⟨.error (.labeled (enterFailMsg "field")),
       [⟨.error, "❌ " ++ enterFailMsg "field"⟩], []⟩ ∧
    enter_text "field" "hello" true ⟨.ok (), none, none⟩ =
      ⟨.ok (), [⟨.info, "✅ Entered text " ++ "hello" ++ " in " ++ "field"⟩],
       if true then [.cleared, .sentKeys "hello"] else [.sentKeys "hello"]⟩ :=
  ⟨(C6_enter_text_timeout_vs_success "field" "hello" true ⟨.error .timeout, none, none⟩).1 rfl,
   (C6_enter_text_timeout_vs_success "field" "hello" true ⟨.ok (), none, none⟩).2 rfl rfl rfl⟩

lemma waitPoll_eq_none (ready : Nat → Bool) :
    ∀ fuel start, (∀ i, i < fuel → ready (start + i) = false) →
      waitPoll ready fuel start = none := by
  intro fuel
  induction fuel with
  | zero => intro start _; rfl
  | succ n ih =>
    intro start h
    have h0 : ready start = false := by simpa using h 0 (by omega)
    rw [waitPoll, h0]
    simp only [Bool.false_eq_true, if_false]
    refine ih (start + 1) fun i hi => ?_
    have e : start + 1 + i = start + (i + 1) := by omega
    rw [e]
    exact h (i + 1) (by omega)

lemma waitPoll_isSome (ready : Nat → Bool) :
    ∀ fuel start i, i < fuel → ready (start + i) = true →
      ∃ t, waitPoll ready fuel start = some t := by
  intro fuel
  induction fuel with
  | zero => intro start i hi _; exact absurd hi (by omega)
  | succ n ih =>
    intro start i hi hr
    by_cases h0 : ready start = true
    · exact ⟨start, by rw [waitPoll, h0]; simp⟩
    · have h0' : ready start = false := by simpa using h0
      cases i with
      | zero => exact absurd hr (by simpa using h0)
      | succ j =>
        have hr' : ready (start + 1 + j) = true := by
          have e : start + 1 + j = start + (j + 1) := by omega
          rw [e]; exact hr
        obtain ⟨t, ht⟩ := ih (start + 1) j (by omega) hr'
        exact ⟨t, by rw [waitPoll, h0']; simpa using ht⟩

/-- C7: `wait_for_page_load(timeout)` polls the page-ready signal; when the
timeout elapses without readiness it logs an error record but returns
normally (no exception escapes), and when the signal becomes ready within
the bound it returns normally with an info record. -/
theorem C7_page_load_timeout_swallowed (timeout : Nat) (ready : Nat → Bool) :
    ((∀ t, t < timeout → ready t = false) →
      wait_for_page_load timeout ready =
        ⟨.ok (), [⟨.error, "❌ Timeout: Page did not load completely"⟩]⟩) ∧
    (∀ t, t < timeout → ready t = true →
      wait_for_page_load timeout ready =
        ⟨.ok (), [⟨.info, "✅ Page fully loaded"⟩]⟩) := by
  constructor
  · intro h
    have hn := waitPoll_eq_none ready timeout 0 fun i hi => by simpa using h i hi
    simp [wait_for_page_load, hn]
  · intro t ht hr
    obtain ⟨u, hu⟩ := waitPoll_isSome ready timeout 0 t ht (by simpa using hr)
    simp [wait_for_page_load, hu]

/-- Witness for C7: a page that never becomes ready within 3 polls, and a
page that becomes ready at tick 1. -/
theorem C7_page_load_timeout_swallowed_witness :
    wait_for_page_load 3 (fun _ => false) =
      ⟨.ok (), [⟨.error, "❌ Timeout: Page did not load completely"⟩]⟩ ∧
    wait_for_page_load 3 (fun t => decide (t = 1)) =
      ⟨.ok (), [⟨.info, "✅ Page fully loaded"⟩]⟩ :=
  ⟨(C7_page_load_timeout_swallowed 3 (fun _ => false)).1 (fun _ _ => rfl),
   (C7_page_load_timeout_swallowed 3 (fun t => decide (t = 1))).2 1 (by omega) (by decide)⟩

/-- C9: `enter_text` converts only an escaping `TimeoutException` into its
labeled failure; a driver error raised while clearing the field or sending
the keystrokes (after the element was found) propagates to the caller as the
raw exception with nothing logged. -/
theorem C9_post_find_error_propagates_raw (locator text : String) (b : ElemBehavior)
    (e : PyExc) (he : e ≠ .timeout) :
    (b.findResult = .ok () → b.clearErr = some e →
      enter_text locator text true b = ⟨.error e, [], []⟩) ∧
    (b.findResult = .ok () → b.clearErr = none → b.sendKeysErr = some e →
      enter_text locator text true b = ⟨.error e, [], [.cleared]⟩) := by
  constructor
  · intro h h1
    simp [enter_text, enterBody, h, h1, he]
  · intro h h1 h2
    simp [enter_text, enterBody, h, h1, h2, he]

/-- Witness for C9 with a stale-element error during `clear()` and during
`send_keys()`. -/
theorem C9_post_find_error_propagates_raw_witness :
    enter_text "field" "hello" true ⟨.ok (), some .staleElementReference, none⟩ =
      ⟨.error .staleElementReference, [], []⟩ ∧
    enter_text "field" "hello" true ⟨.ok (), none, some .staleElementReference⟩ =
      ⟨.error .staleElementReference, [], [.cleared]⟩ :=
  ⟨(C9_post_find_error_propagates_raw "field" "hello"
      ⟨.ok (), some .staleElementReference, none⟩ .staleElementReference (by decide)).1 rfl rfl,
   (C9_post_find_error_propagates_raw "field" "hello"
      ⟨.ok (), none, some .staleElementReference⟩ .staleElementReference (by decide)).2
     rfl rfl rfl⟩

lemma emit_files_count (line : String) :
    ∀ (hs : List String) (fs : String → List String) (name : String),
      hs.foldl (fun g h => fun n => if n = h then g h ++ [line] else g n) fs name =
        fs name ++ List.replicate (hs.count name) line := by
  intro hs
  induction hs with
  | nil => intro fs name; simp
  | cons h rest ih =>
    intro fs name
    rw [List.foldl_cons, ih]
    by_cases hn : name = h
    · subst hn
      simp [List.count_cons, List.replicate_succ]
    · simp [hn, List.count_cons]

/-- C3 is false on the code at a concrete input: two `get_logger` calls at
distinct timestamps attach two handlers, so a single emitted record is
written to two distinct files (not exactly one); moreover a second
`get_logger` call at the same timestamp reopens the file with mode `"w"`
and truncates it. -/
theorem C3_counterexample_two_files :
    (emit (get_logger 1 (get_logger 0 logInit)) "rec").files (logFilename 0) = ["rec"] ∧
    (emit (get_logger 1 (get_logger 0 logInit)) "rec").files (logFilename 1) = ["rec"] ∧
    logFilename 0 ≠ logFilename 1 ∧
    (emit (get_logger 0 logInit) "rec").files (logFilename 0) = ["rec"] ∧
    (get_logger 0 (emit (get_logger 0 logInit) "rec")).files (logFilename 0) = [] := by
  refine ⟨?_, ?_, ?_, ?_, ?_⟩ <;> decide

/-- C3 (amended): each `get_logger` call attaches one more `FileHandler` to
the process-wide root logger, opening the file named by that call's
timestamp in truncate mode; a record emitted afterwards is appended to every
attached handler's file — once per occurrence of that file among the
handlers — so a run whose components obtain the logger at `n` distinct
timestamps writes each record to `n` files rather than one. -/
theorem C3_amended_logger_fans_out (s : LoggerState) (t : Nat) (line name : String) :
    (get_logger t s).handlers = s.handlers ++ [logFilename t] ∧
    (get_logger t s).files (logFilename t) = [] ∧
    (emit s line).handlers = s.handlers ∧
    (emit s line).files name = s.files name ++ List.replicate (s.handlers.count name) line := by
  refine ⟨rfl, by simp [get_logger], rfl, ?_⟩
  exact emit_files_count line s.handlers s.files name

/-- C8 is false as stated at a concrete input: `enter_text` on an element
that is found but whose `send_keys` raises a stale-element error raises that
error while emitting no log record at all — no error-level record
identifying the locator precedes the raise. -/
theorem C8_counterexample_unlogged_raise :
    (enter_text "loc" "txt" true ⟨.ok (), none, some .staleElementReference⟩).outcome =
      .error .staleElementReference ∧
    (enter_text "loc" "txt" true ⟨.ok (), none, some .staleElementReference⟩).log = [] :=
  ⟨rfl, rfl⟩

lemma clickLoop_allCaught (locator : String) (retries : Nat) (beh : Nat → AttemptOutcome)
    (h : ∀ i, ∃ e, beh i = .raises e ∧ e.caughtByClick = true) :
    ∀ remaining attempt, ∃ warns,
      clickLoop locator retries beh attempt remaining =
        ⟨.error (.labeled (clickFailMsg locator)),
         warns ++ [⟨.error, clickErrMsg locator retries⟩],
         List.replicate remaining 1⟩ ∧
      warns.length = remaining ∧ ∀ r ∈ warns, r.level = .warning := by
  intro remaining
  induction remaining with
  | zero =>
    intro attempt
    exact ⟨[], rfl, rfl, by simp⟩
  | succ n ih =>
    intro attempt
    obtain ⟨e, he, hc⟩ := h attempt
    obtain ⟨warns, h1, h2, h3⟩ := ih (attempt + 1)
    refine ⟨⟨.warning, clickWarnMsg locator retries attempt e⟩ :: warns, ?_, ?_, ?_⟩
    · rw [clickLoop, he]
      simp only [hc, if_true]
      rw [h1]
      simp [List.replicate_succ]
    · simp [h2]
    · intro r hr
      rcases List.mem_cons.mp hr with h | h
      · rw [h]
      · exact h3 r h

/-- C8 (amended): every labeled failure the wrapper itself raises is
preceded by an error-level record carrying the locator — `click` logs one
warning per caught failed attempt and the final error record before raising,
and `enter_text`, `get_text`, `scroll_to_element` log their timeout error
record before raising — but a driver error raised after the element is
obtained (outside the caught exception classes) propagates with no log
record at all. -/
theorem C8_amended_labeled_failures_logged (locator text : String) (clear : Bool)
    (bE : ElemBehavior) (bodyG : Except PyExc String) (bodyS : Except PyExc Unit)
    (retries : Nat) (behC : Nat → AttemptOutcome) :
    (bE.findResult = .error .timeout →
      (enter_text locator text clear bE).log = [⟨.error, "❌ " ++ enterFailMsg locator⟩] ∧
      (enter_text locator text clear bE).outcome = .error (.labeled (enterFailMsg locator))) ∧
    (bodyG = .error .timeout →
      get_text locator bodyG =
        ⟨.error (.labeled ("Timeout: Unable to get text from " ++ locator)),
         [⟨.error, "❌ Timeout: Unable to get text from " ++ locator⟩]⟩) ∧
    (bodyS = .error .timeout →
      scroll_to_element locator bodyS =
        ⟨.error (.labeled ("Timeout: Unable to scroll to " ++ locator)),
         [⟨.error, "❌ Timeout: Unable to scroll to " ++ locator⟩]⟩) ∧
    ((∀ i, ∃ e, behC i = .raises e ∧ e.caughtByClick = true) →
      ∃ warns,
        (click locator retries behC).log = warns ++ [⟨.error, clickErrMsg locator retries⟩] ∧
        (click locator retries behC).outcome = .error (.labeled (clickFailMsg locator)) ∧
        warns.length = retries ∧ ∀ r ∈ warns, r.level = .warning) ∧
    (∀ e : PyExc, e ≠ .timeout → bE.findResult = .ok () → bE.clearErr = none →
      bE.sendKeysErr = some e → (enter_text locator text clear bE).log = []) := by
  refine ⟨?_, ?_, ?_, ?_, ?_⟩
  · intro h
    constructor <;> simp [enter_text, enterBody, h]
  · intro h
    simp [get_text, h]
  · intro h
    simp [scroll_to_element, h]
  · intro h
    obtain ⟨warns, h1, h2, h3⟩ := clickLoop_allCaught locator retries behC h retries 0
    refine ⟨warns, ?_, ?_, h2, h3⟩
    · show (clickLoop locator retries behC 0 retries).log = _
      rw [h1]
    · show (clickLoop locator retries behC 0 retries).outcome = _
      rw [h1]
  · intro e he h h1 h2
    cases clear <;> simp [enter_text, enterBody, h, h1, h2, he]

/-- Witness for C8 (amended) on `get_text` with a timeout. -/
theorem C8_amended_labeled_failures_logged_witness :
    get_text "loc" (.error .timeout) =
      ⟨.error (.labeled ("Timeout: Unable to get text from " ++ "loc")),
       [⟨.error, "❌ Timeout: Unable to get text from " ++ "loc"⟩]⟩ :=
  (C8_amended_labeled_failures_logged "loc" "txt" true ⟨.ok (), none, none⟩
      (.error .timeout) (.ok ()) 2 (fun _ => .ok)).2.1 rfl

/-- C10: `handle_alert` catches `WebDriverException` around its whole body,
so for driver-raised errors it never raises: every driver failure —
including one while accepting or dismissing an alert that is present — is
reported exactly like alert absence (warning record, `None` returned, no
action recorded), so the caller cannot distinguish a failed dismissal from
no alert. -/
theorem C10_alert_errors_look_like_absence (b : AlertBehavior) (accept : Bool)
    (hA : ∀ e, b.acceptErr = some e → e.isWebDriverException = true)
    (hD : ∀ e, b.dismissErr = some e → e.isWebDriverException = true) :
    (∃ r, (handle_alert b accept).outcome = .ok r) ∧
    (∀ txt e, b.present = some txt →
      (if accept then b.acceptErr else b.dismissErr) = some e →
      handle_alert b accept = handle_alert ⟨none, none, none⟩ accept) := by
  constructor
  · cases hp : b.present with
    | none => exact ⟨none, by simp [handle_alert, hp]⟩
    | some txt =>
      cases accept with
      | false =>
        cases hd : b.dismissErr with
        | none => exact ⟨some txt, by simp [handle_alert, hp, hd]⟩
        | some e => exact ⟨none, by simp [handle_alert, hp, hd, hD e hd]⟩
      | true =>
        cases ha : b.acceptErr with
        | none => exact ⟨some txt, by simp [handle_alert, hp, ha]⟩
        | some e => exact ⟨none, by simp [handle_alert, hp, ha, hA e ha]⟩
  · intro txt e hp hif
    cases accept with
    | true =>
      rw [if_pos rfl] at hif
      simp [handle_alert, hp, hif, hA e hif]
    | false =>
      rw [if_neg (by decide)] at hif
      simp [handle_alert, hp, hif, hD e hif]

/-- Witness for C10: an active alert whose `accept()` raises a
`WebDriverException` is handled exactly like no alert at all. -/
theorem C10_alert_errors_look_like_absence_witness :
    handle_alert ⟨some "hi", some .webDriver, none⟩ true =
      handle_alert ⟨none, none, none⟩ true :=
  (C10_alert_errors_look_like_absence ⟨some "hi", some .webDriver, none⟩ true
      (fun e he => by simp only [Option.some.injEq] at he; subst he; rfl)
      (fun e he => Option.noConfusion he)).2 "hi" .webDriver rfl (by rw [if_pos rfl])

end AWA
